import Mathlib

/-!
Shallow embedding of the Matrix Orbital LCD plugin for Quod Libet
(`matrix_orbital.py`): the now-playing display phase state machine
(`_NowPlayingLCDData`), the protocol encoder (`_align_text`), and the
seek-progress computation (`plugin_on_seek`).

Texts are lists of characters (already transliterated: the spec treats
ASCII transliteration as an external pure function, so the embedding
takes the transliterated strings as inputs).  Python integers are `Int`,
Python floats are modelled exactly as rationals, and Python byte strings
are lists of natural numbers.
-/

namespace MatrixOrbital

/-- Python `round`: round half to even, as `int(round(x))` in the source
(`_seconds_to_ticks`, `plugin_on_seek`). -/
def pyRound (q : ℚ) : ℤ :=
  let f : ℤ := ⌊q⌋
  if q - f < 1/2 then f
  else if (1:ℚ)/2 < q - f then f + 1
  else if f % 2 = 0 then f else f + 1

/-- Python `str.ljust`: pad on the right with blanks up to width `n`
(no-op when the string is already at least that long). -/
def ljust (s : List Char) (n : ℕ) : List Char :=
  s ++ List.replicate (n - s.length) ' '

/-- Python `str.rjust`: pad on the left with blanks up to width `n`. -/
def rjust (s : List Char) (n : ℕ) : List Char :=
  List.replicate (n - s.length) ' ' ++ s

/-- Python slice `s[0:n]` with a possibly negative `n`
(a negative stop counts from the end of the string). -/
def pySliceTo (n : ℤ) (s : List Char) : List Char :=
  if n < 0 then s.take (s.length - n.natAbs) else s.take n.toNat

/-- The display phases of `_NowPlayingLCDData._Phase`. -/
inductive Phase where
  | basicInfo
  | basicScroll
  | basicInfo2
  | basicScroll2
  | discInfo
  | headerInfo
  deriving DecidableEq, Repr

/-- Horizontal alignments of `MatrixOrbitalLCD._Alignment` (the two
vertical members are the separate type `VAlign` below). -/
inductive HAlign where
  | left
  | right
  | center
  deriving DecidableEq, Repr

/-- Vertical alignments (`TOP` / `BOTTOM`) of `MatrixOrbitalLCD._Alignment`. -/
inductive VAlign where
  | top
  | bottom
  deriving DecidableEq, Repr

/-- One observable write to the display during a tick: the
clear-and-home control (`_reset_lcd`), a text row written through
`_NowPlayingLCDData._write_text` (recording the truncated row text and
its row selector), or a write made by `_write_header` /
`_write_header_with_text` (which bypass `_write_text`). -/
inductive Write where
  | clearHome
  | row (text : List Char) (v : VAlign)
  | headerText (text : List Char)
  deriving DecidableEq, Repr

/-- The state of `_NowPlayingLCDData`: the configuration captured in
`__init__` plus every mutable attribute. -/
structure NowPlayingLCDData where
  max_width : ℕ
  interval : ℚ
  ticks_in_phase : ℤ
  artist : Option (List Char)
  title : Option (List Char)
  disc_info_row_1 : List Char
  disc_info_row_2 : List Char
  skip_ticks : ℤ
  scroll_a : ℤ
  scroll_t : ℤ
  tick_count : ℤ
  phase : Phase
  force_refresh : Bool
  deriving DecidableEq, Repr

/-- `_seconds_to_ticks`: `int(round(seconds * (1000 / self._interval)))`. -/
def seconds_to_ticks (interval : ℚ) (seconds : ℚ) : ℤ :=
  pyRound (seconds * (1000 / interval))

/-- `reset`: reinitialize every mutable attribute. -/
def reset (s : NowPlayingLCDData) : NowPlayingLCDData :=
  { s with
    artist := none
    title := none
    disc_info_row_1 := []
    disc_info_row_2 := []
    skip_ticks := 0
    scroll_a := 0
    scroll_t := 0
    tick_count := 0
    phase := Phase.basicInfo
    force_refresh := true }

/-- `__init__`: record the configured width and interval, derive
`_ticks_in_phase = _seconds_to_ticks(4)`, and `reset()`. -/
def initState (width : ℕ) (interval : ℚ) : NowPlayingLCDData :=
  reset
    { max_width := width
      interval := interval
      ticks_in_phase := seconds_to_ticks interval 4
      artist := none
      title := none
      disc_info_row_1 := []
      disc_info_row_2 := []
      skip_ticks := 0
      scroll_a := 0
      scroll_t := 0
      tick_count := 0
      phase := Phase.basicInfo
      force_refresh := true }

/-- `set_basic_info`: store the (transliterated) artist and title;
a field longer than the display width is padded with
`"".ljust(self._max_width)`, i.e. `max_width` blanks. -/
def set_basic_info (s : NowPlayingLCDData) (artist title : List Char) :
    NowPlayingLCDData :=
  { s with
    artist := some (if artist.length > s.max_width
      then artist ++ List.replicate s.max_width ' ' else artist)
    title := some (if title.length > s.max_width
      then title ++ List.replicate s.max_width ' ' else title) }

/-- `set_disc_info`: build the two disc-info rows.  An over-width album
is cut to `album[0:max_width - 3] + "..."`; row 2 is
`("Disc " + discnumber + " ").ljust(9)` when a disc number is present,
extended by `("Track " + tracknumber).rjust(max_width - len(row2))` when
a track number is present. -/
def set_disc_info (s : NowPlayingLCDData)
    (album discnumber tracknumber : Option (List Char)) :
    NowPlayingLCDData :=
  let row1 : List Char :=
    match album with
    | none => []
    | some al =>
      if al.length > s.max_width
      then pySliceTo ((s.max_width : ℤ) - 3) al ++ ['.', '.', '.']
      else al
  let row2a : List Char :=
    match discnumber with
    | none => []
    | some d => ljust ("Disc ".toList ++ d ++ [' ']) 9
  let row2 : List Char :=
    match tracknumber with
    | none => row2a
    | some t => row2a ++ rjust ("Track ".toList ++ t) (s.max_width - row2a.length)
  { s with disc_info_row_1 := row1, disc_info_row_2 := row2 }

/-- `prevent_update`: negative seconds suppress indefinitely
(`skip_ticks = -1`); otherwise store `_seconds_to_ticks(seconds)`. -/
def prevent_update (s : NowPlayingLCDData) (seconds : ℚ) :
    NowPlayingLCDData :=
  if seconds < 0 then { s with skip_ticks := -1 }
  else { s with skip_ticks := seconds_to_ticks s.interval seconds }

/-- `set_forced_update`: request a full redraw on the next eligible tick. -/
def set_forced_update (s : NowPlayingLCDData) : NowPlayingLCDData :=
  { s with force_refresh := true }

/-- The phase-successor table `next_phases` of `_advance_phase`
(every phase is a key, so the `.get` default is never taken). -/
def nextPhase : Phase → Phase
  | Phase.basicInfo => Phase.basicScroll
  | Phase.basicScroll => Phase.basicInfo2
  | Phase.basicInfo2 => Phase.basicScroll2
  | Phase.basicScroll2 => Phase.discInfo
  | Phase.discInfo => Phase.headerInfo
  | Phase.headerInfo => Phase.basicInfo

/-- `_advance_phase`: zero the scroll cursors and the tick counter, set a
cursor to `-1` when its field does not need to scroll, step the phase
through `next_phases`, and force a refresh.  (In the source the lengths
are read off the stored strings; `_advance_phase` is only reached from
`on_tracker_tick` after its metadata guard, so the fields are never
`None` there — `Option.getD` totalizes that.) -/
def advance_phase (s : NowPlayingLCDData) : NowPlayingLCDData :=
  { s with
    scroll_a := if (s.artist.getD []).length ≤ s.max_width then -1 else 0
    scroll_t := if (s.title.getD []).length ≤ s.max_width then -1 else 0
    tick_count := 0
    phase := nextPhase s.phase
    force_refresh := true }

/-- `_write_text`: rotate the text left by the scroll offset when it is
positive (`text[scroll:] + text`), then truncate to `max_width`.  This
returns the row text handed to `_align_text(…, LEFT, v_align)`. -/
def write_text_row (w : ℕ) (text : List Char) (scroll : Option ℤ) :
    List Char :=
  let t : List Char :=
    match scroll with
    | some sc => if sc > 0 then text.drop sc.toNat ++ text else text
    | none => text
  t.take w

/-- `_refresh`: the rows written for the requested fields, in order.
Disc info writes both disc rows; otherwise the artist row (top, at its
scroll cursor) and/or the title row (bottom, at its scroll cursor). -/
def refresh_writes (s : NowPlayingLCDData)
    (artist title disc_info : Bool) : List Write :=
  if disc_info then
    [Write.row (write_text_row s.max_width s.disc_info_row_1 none) VAlign.top,
     Write.row (write_text_row s.max_width s.disc_info_row_2 none) VAlign.bottom]
  else
    (if artist then
      [Write.row (write_text_row s.max_width (s.artist.getD []) (some s.scroll_a))
        VAlign.top]
     else []) ++
    (if title then
      [Write.row (write_text_row s.max_width (s.title.getD []) (some s.scroll_t))
        VAlign.bottom]
     else [])

/-- The `BASIC_INFO` / `BASIC_INFO_2` block of `on_tracker_tick`; `s1`
is the state with the tick counter already incremented. -/
def tick_basic_info (s1 : NowPlayingLCDData) :
    NowPlayingLCDData × List Write :=
  let s2 := if s1.force_refresh then { s1 with force_refresh := false } else s1
  let ws := if s1.force_refresh then
      Write.clearHome :: refresh_writes s2 true true false else []
  if s2.tick_count > s2.ticks_in_phase then (advance_phase s2, ws)
  else (s2, ws)

/-- The `BASIC_SCROLL` / `BASIC_SCROLL_2` block of `on_tracker_tick`:
the refresh flags are read off the pre-increment cursors, the phase
advances only when both cursors are retired, and each live cursor is
stepped (and retired past the text length) before the flagged rows are
redrawn at the new offsets. -/
def tick_scroll (s1 : NowPlayingLCDData) : NowPlayingLCDData × List Write :=
  let refresh_artist := s1.scroll_a > -1 ∨ s1.force_refresh
  let refresh_title := s1.scroll_t > -1 ∨ s1.force_refresh
  if s1.tick_count > s1.ticks_in_phase ∧ s1.scroll_a = -1 ∧ s1.scroll_t = -1
  then (advance_phase s1, [])
  else
    let s2 := if s1.force_refresh then { s1 with force_refresh := false } else s1
    let ws0 := if s1.force_refresh then [Write.clearHome] else []
    let s3 := if s2.scroll_a > -1 then
        { s2 with scroll_a :=
          if s2.scroll_a + 1 > (s2.artist.getD []).length then -1
          else s2.scroll_a + 1 }
      else s2
    let s4 := if s3.scroll_t > -1 then
        { s3 with scroll_t :=
          if s3.scroll_t + 1 > (s3.title.getD []).length then -1
          else s3.scroll_t + 1 }
      else s3
    let ws := ws0 ++
      (if refresh_artist then refresh_writes s4 true false false else []) ++
      (if refresh_title then refresh_writes s4 false true false else [])
    (s4, ws)

/-- The `DISC_INFO` block of `on_tracker_tick`. -/
def tick_disc (s1 : NowPlayingLCDData) : NowPlayingLCDData × List Write :=
  let s2 := if s1.force_refresh then { s1 with force_refresh := false } else s1
  let ws := if s1.force_refresh then
      Write.clearHome :: refresh_writes s2 false false true else []
  if s2.tick_count > s2.ticks_in_phase then (advance_phase s2, ws)
  else (s2, ws)

/-- The `HEADER_INFO` block of `on_tracker_tick` (`_write_header_with_text`
itself clears the display again, hence the doubled clear; the phase holds
for half the usual tick span: `tick_count > ticks_in_phase / 2` over the
reals is `2 * tick_count > ticks_in_phase` over the integers). -/
def tick_header (s1 : NowPlayingLCDData) : NowPlayingLCDData × List Write :=
  let s2 := if s1.force_refresh then { s1 with force_refresh := false } else s1
  let ws := if s1.force_refresh then
      [Write.clearHome, Write.clearHome,
       Write.headerText "Quod Libet".toList,
       Write.headerText "* now playing *".toList]
    else []
  if 2 * s2.tick_count > s2.ticks_in_phase then (advance_phase s2, ws)
  else (s2, ws)

/-- `on_tracker_tick`: one tick of the phase state machine.  Returns the
new state together with the list of display writes the tick performs.
(The phase dispatch reads `self._phase`, which the tick-counter
increment does not touch.) -/
def on_tracker_tick (s : NowPlayingLCDData) :
    NowPlayingLCDData × List Write :=
  if s.artist = none ∨ s.title = none ∨ s.skip_ticks < 0 then (s, [])
  else if s.skip_ticks > 0 then
    let sk := s.skip_ticks - 1
    ({ s with
        skip_ticks := sk
        force_refresh := if sk = 0 then true else s.force_refresh }, [])
  else
    match s.phase with
    | Phase.basicInfo | Phase.basicInfo2 =>
      tick_basic_info { s with tick_count := s.tick_count + 1 }
    | Phase.basicScroll | Phase.basicScroll2 =>
      tick_scroll { s with tick_count := s.tick_count + 1 }
    | Phase.discInfo =>
      tick_disc { s with tick_count := s.tick_count + 1 }
    | Phase.headerInfo =>
      tick_header { s with tick_count := s.tick_count + 1 }

/-- Run `n` consecutive ticks, accumulating the writes in order. -/
def runTicks : ℕ → NowPlayingLCDData → NowPlayingLCDData × List Write
  | 0, s => (s, [])
  | n + 1, s =>
    let p := on_tracker_tick s
    let q := runTicks n p.1
    (q.1, p.2 ++ q.2)

/-- The texts of the top-row writes produced through `_write_text`,
in order. -/
def topRows (ws : List Write) : List (List Char) :=
  ws.filterMap fun w =>
    match w with
    | Write.row t VAlign.top => some t
    | _ => none

/-- The texts of the bottom-row writes produced through `_write_text`,
in order. -/
def bottomRows (ws : List Write) : List (List Char) :=
  ws.filterMap fun w =>
    match w with
    | Write.row t VAlign.bottom => some t
    | _ => none

/-- Left rotation of a character list by `k` places. -/
def rotl (l : List Char) (k : ℕ) : List Char :=
  l.drop k ++ l.take k

/-- The scroll cursor after `j` ticks of the scroll block's per-tick
update (`on_tracker_tick` lines 206-214): a live cursor steps by one and
retires to `-1` once it passes the text length `len`; a retired (or
otherwise non-live) cursor is left alone. -/
def scrollCursorRun (len : ℤ) (c0 : ℤ) : ℕ → ℤ
  | 0 => c0
  | j + 1 =>
    let c := scrollCursorRun len c0 j
    if c > -1 then if c + 1 > len then -1 else c + 1 else c

/-- The cursor column computed by `_align_text` for each horizontal
alignment (Python `floor` on an exact half is `Int.fdiv`). -/
def colIndex (w : ℕ) (text : List Char) : HAlign → ℤ
  | HAlign.left => 1
  | HAlign.right => max ((w : ℤ) - text.length + 1) 1
  | HAlign.center => Int.fdiv ((w : ℤ) - text.length) 2 + 1

/-- UTF-8 encoding of a single code point, as Python
`bytes(chr(index), "utf8")` produces for a valid code point. -/
def utf8Encode (n : ℕ) : List ℕ :=
  if n < 0x80 then [n]
  else if n < 0x800 then [0xC0 + n / 64, 0x80 + n % 64]
  else if n < 0x10000 then
    [0xE0 + n / 4096, 0x80 + n / 64 % 64, 0x80 + n % 64]
  else [0xF0 + n / 262144, 0x80 + n / 4096 % 64, 0x80 + n / 64 % 64,
    0x80 + n % 64]

/-- `_align_text`: the byte string `b"\xFEG" + bytes(chr(index), "utf8")`
followed by the row selector (`01` top / `02` bottom) and the UTF-8
bytes of the text.  `chr(index)` raises `ValueError` outside
`0..0x10FFFF`, modelled as `none`. -/
def align_text (w : ℕ) (text : List Char) (h : HAlign) (v : VAlign) :
    Option (List ℕ) :=
  let index := colIndex w text h
  if index < 0 ∨ index > 0x10FFFF then none
  else some ([0xFE, 0x47] ++ utf8Encode index.toNat ++
    (match v with | VAlign.top => [1] | VAlign.bottom => [2]) ++
    text.flatMap fun c => utf8Encode c.toNat)

/-- The percent value of `plugin_on_seek`:
`int(round(msec / float(song.get("~#length", 0)) / 10))`.  Python raises
`ZeroDivisionError` when the track length is `0` (also the default when
the tag is missing), modelled as `none`. -/
def seek_percent (msec : ℚ) (length : ℚ) : Option ℤ :=
  if length = 0 then none else some (pyRound (msec / length / 10))

/-- Modelled from the spec's wording of the disc row 2 rule ("placing
`"Disc " + disc_number` left-justified to width 9 … appending
`"Track " + track_number` right-justified into the remaining width"),
for comparison with `set_disc_info`.  Note the absence of the extra
blank after the disc number. -/
def disc_row_2_claimed (w : ℕ) (discnumber tracknumber : Option (List Char)) :
    List Char :=
  let row2a : List Char :=
    match discnumber with
    | none => []
    | some d => ljust ("Disc ".toList ++ d) 9
  match tracknumber with
  | none => row2a
  | some t => row2a ++ rjust ("Track ".toList ++ t) (w - row2a.length)

/-- A sample fully configured state (width 20, interval 150 ms,
`_ticks_in_phase = 27` as `__init__` computes for those values), with a
short artist and title loaded, used to instantiate theorems with
hypotheses at concrete inputs. -/
def sampleState : NowPlayingLCDData :=
  { max_width := 20
    interval := 150
    ticks_in_phase := 27
    artist := some "The Artist".toList
    title := some "The Title".toList
    disc_info_row_1 := []
    disc_info_row_2 := []
    skip_ticks := 0
    scroll_a := -1
    scroll_t := -1
    tick_count := 0
    phase := Phase.basicInfo
    force_refresh := true }

/-- A width-2 state at the entry of a `BASIC_SCROLL` phase, exactly as
`_advance_phase` leaves it for the over-width artist `"abc"` (stored
padded by `set_basic_info`) and the short title `"x"`. -/
def scrollEntryState : NowPlayingLCDData :=
  { max_width := 2
    interval := 150
    ticks_in_phase := 27
    artist := some ("abc".toList ++ List.replicate 2 ' ')
    title := some "x".toList
    disc_info_row_1 := []
    disc_info_row_2 := []
    skip_ticks := 0
    scroll_a := 0
    scroll_t := -1
    tick_count := 0
    phase := Phase.basicScroll
    force_refresh := true }

/-- A width-2 state at the entry of a `BASIC_SCROLL` phase with *both*
fields over-width and scrolling: artist `"wxyz"` and title `"abc"`, each
stored padded by `set_basic_info`, both cursors live at 0 as
`_advance_phase` leaves them. -/
def scrollEntryBoth : NowPlayingLCDData :=
  { max_width := 2
    interval := 150
    ticks_in_phase := 27
    artist := some ("wxyz".toList ++ List.replicate 2 ' ')
    title := some ("abc".toList ++ List.replicate 2 ' ')
    disc_info_row_1 := []
    disc_info_row_2 := []
    skip_ticks := 0
    scroll_a := 0
    scroll_t := 0
    tick_count := 0
    phase := Phase.basicScroll
    force_refresh := true }

/-- States reachable from a fresh `_NowPlayingLCDData` by any sequence
of the public operations (as quantified in the invariant claim). -/
inductive ReachAny (w : ℕ) (iv : ℚ) : NowPlayingLCDData → Prop where
  | init : ReachAny w iv (initState w iv)
  | reset_ {s} : ReachAny w iv s → ReachAny w iv (reset s)
  | basic {s} (ar ti : List Char) : ReachAny w iv s →
      ReachAny w iv (set_basic_info s ar ti)
  | disc {s} (al dn tn : Option (List Char)) : ReachAny w iv s →
      ReachAny w iv (set_disc_info s al dn tn)
  | suppress {s} (sec : ℚ) : ReachAny w iv s →
      ReachAny w iv (prevent_update s sec)
  | force {s} : ReachAny w iv s → ReachAny w iv (set_forced_update s)
  | tick {s} : ReachAny w iv s → ReachAny w iv (on_tracker_tick s).1

/-- States reachable when the metadata setters are invoked only as the
host does at track start (`plugin_on_song_started`: `reset()` then
`set_basic_info` then `set_disc_info`), alongside the other public
operations. -/
inductive ReachTrack (w : ℕ) (iv : ℚ) : NowPlayingLCDData → Prop where
  | init : ReachTrack w iv (initState w iv)
  | trackStart {s} (ar ti : List Char) (al dn tn : Option (List Char)) :
      ReachTrack w iv s →
      ReachTrack w iv (set_disc_info (set_basic_info (reset s) ar ti) al dn tn)
  | trackEnd {s} : ReachTrack w iv s → ReachTrack w iv (reset s)
  | suppress {s} (sec : ℚ) : ReachTrack w iv s →
      ReachTrack w iv (prevent_update s sec)
  | force {s} : ReachTrack w iv s → ReachTrack w iv (set_forced_update s)
  | tick {s} : ReachTrack w iv s → ReachTrack w iv (on_tracker_tick s).1

/-- The scroll-cursor invariant maintained by the state machine: a
positive cursor (and, inside a scroll phase, any cursor other than
`-1`) certifies that the corresponding stored text is longer than the
display width. -/
def scrollInv (s : NowPlayingLCDData) : Prop :=
  (1 ≤ s.scroll_a → ∃ a, s.artist = some a ∧ s.max_width < a.length) ∧
  ((s.phase = Phase.basicScroll ∨ s.phase = Phase.basicScroll2) →
    0 ≤ s.scroll_a → ∃ a, s.artist = some a ∧ s.max_width < a.length) ∧
  (1 ≤ s.scroll_t → ∃ t, s.title = some t ∧ s.max_width < t.length) ∧
  ((s.phase = Phase.basicScroll ∨ s.phase = Phase.basicScroll2) →
    0 ≤ s.scroll_t → ∃ t, s.title = some t ∧ s.max_width < t.length)

end MatrixOrbital

namespace MatrixOrbital

/-! ### Helper lemmas about `on_tracker_tick` -/

/-- The metadata/suppression guard: a tick with no metadata or negative
`skip_ticks` changes nothing and draws nothing. -/
theorem on_tick_guard (s : NowPlayingLCDData)
    (h : s.artist = none ∨ s.title = none ∨ s.skip_ticks < 0) :
    on_tracker_tick s = (s, []) := by
  rw [on_tracker_tick, if_pos h]

/-- The countdown branch: with metadata loaded and positive `skip_ticks`,
a tick only decrements the countdown, forcing a refresh when it hits 0. -/
theorem on_tick_skip (s : NowPlayingLCDData) (a u : List Char)
    (ha : s.artist = some a) (ht : s.title = some u)
    (h : 0 < s.skip_ticks) :
    on_tracker_tick s =
      ({ s with
          skip_ticks := s.skip_ticks - 1
          force_refresh := if s.skip_ticks - 1 = 0 then true
            else s.force_refresh }, []) := by
  rw [on_tracker_tick, if_neg (by simp [ha, ht]; omega), if_pos h]

/-- With metadata loaded and `skip_ticks = 0` a tick increments the
counter and dispatches on the current phase. -/
theorem on_tick_dispatch (s : NowPlayingLCDData) (a u : List Char)
    (ha : s.artist = some a) (ht : s.title = some u)
    (hsk : s.skip_ticks = 0) :
    on_tracker_tick s =
      match s.phase with
      | Phase.basicInfo | Phase.basicInfo2 =>
        tick_basic_info { s with tick_count := s.tick_count + 1 }
      | Phase.basicScroll | Phase.basicScroll2 =>
        tick_scroll { s with tick_count := s.tick_count + 1 }
      | Phase.discInfo =>
        tick_disc { s with tick_count := s.tick_count + 1 }
      | Phase.headerInfo =>
        tick_header { s with tick_count := s.tick_count + 1 } := by
  rw [on_tracker_tick, if_neg (by simp [ha, ht]; omega), if_neg (by omega)]

/-- `on_tick_dispatch` specialized to the scroll phases. -/
theorem on_tick_scroll (s : NowPlayingLCDData) (a u : List Char)
    (ha : s.artist = some a) (ht : s.title = some u)
    (hsk : s.skip_ticks = 0)
    (hp : s.phase = Phase.basicScroll ∨ s.phase = Phase.basicScroll2) :
    on_tracker_tick s =
      tick_scroll { s with tick_count := s.tick_count + 1 } := by
  rw [on_tick_dispatch s a u ha ht hsk]
  rcases hp with hp | hp <;> rw [hp]

/-- A retired artist cursor stays retired across a scroll-phase tick
when the artist fits the display. -/
theorem tick_scroll_keeps_a (s1 : NowPlayingLCDData) (a : List Char)
    (ha : s1.artist = some a) (hlen : a.length ≤ s1.max_width)
    (hsa : s1.scroll_a = -1) :
    (tick_scroll s1).1.scroll_a = -1 := by
  rw [tick_scroll]
  dsimp only
  split
  · simp [advance_phase, ha, hlen]
  · simp [hsa, apply_ite (fun x : NowPlayingLCDData => x.scroll_a)]

/-- A retired title cursor stays retired across a scroll-phase tick
when the title fits the display. -/
theorem tick_scroll_keeps_t (s1 : NowPlayingLCDData) (t : List Char)
    (ht : s1.title = some t) (hlen : t.length ≤ s1.max_width)
    (hst : s1.scroll_t = -1) :
    (tick_scroll s1).1.scroll_t = -1 := by
  rw [tick_scroll]
  dsimp only
  split
  · simp [advance_phase, ht, hlen]
  · simp [hst, apply_ite (fun x : NowPlayingLCDData => x.scroll_t),
      apply_ite (fun x : NowPlayingLCDData => x.title)]

/-- `utf8Encode` of a 7-bit code point is that single byte. -/
theorem utf8Encode_ascii {n : ℕ} (h : n < 128) : utf8Encode n = [n] := by
  rw [utf8Encode, if_pos h]

/-- Encoding an all-ASCII text byte-by-byte yields its raw code points. -/
theorem flatMap_utf8_ascii (text : List Char)
    (h : ∀ c ∈ text, c.toNat < 128) :
    (text.flatMap fun c => utf8Encode c.toNat) = text.map Char.toNat := by
  induction text with
  | nil => rfl
  | cons c cs ih =>
    rw [List.flatMap_cons, List.map_cons,
      utf8Encode_ascii (h c (List.mem_cons_self c cs)),
      ih fun x hx => h x (List.mem_cons_of_mem c hx)]
    rfl

end MatrixOrbital

namespace MatrixOrbital

/-! ### Claim theorems -/

/-- C3: every `_advance_phase()` call zeroes `tick_count`, sets
`force_refresh`, and steps the phase one step along the fixed cycle
BasicInfo → BasicScroll → BasicInfo2 → BasicScroll2 → DiscInfo → Header
→ BasicInfo, so six consecutive advances return to the start. -/
theorem advance_phase_spec :
    (∀ s : NowPlayingLCDData,
      (advance_phase s).tick_count = 0 ∧
      (advance_phase s).force_refresh = true ∧
      (advance_phase s).phase = nextPhase s.phase) ∧
    nextPhase Phase.basicInfo = Phase.basicScroll ∧
    nextPhase Phase.basicScroll = Phase.basicInfo2 ∧
    nextPhase Phase.basicInfo2 = Phase.basicScroll2 ∧
    nextPhase Phase.basicScroll2 = Phase.discInfo ∧
    nextPhase Phase.discInfo = Phase.headerInfo ∧
    nextPhase Phase.headerInfo = Phase.basicInfo ∧
    ∀ p : Phase, nextPhase^[6] p = p := by
  refine ⟨fun s => ⟨rfl, rfl, rfl⟩, rfl, rfl, rfl, rfl, rfl, rfl, fun p => ?_⟩
  cases p <;> rfl

/-- C8: the seek handler's percent computation
`int(round(msec / float(song.get("~#length", 0)) / 10))` has no guard:
at track length 0 (a zero-length track, or a missing `~#length` tag,
whose `song.get` default is 0) it divides by zero (`none`); for
`msec = 5000` on a 50-second track it yields the byte value 10. -/
theorem seek_percent_zero_length_crash :
    seek_percent 5000 0 = none ∧ seek_percent 5000 50 = some 10 := by
  refine ⟨rfl, ?_⟩
  norm_num [seek_percent, pyRound]

/-- C2 (counterexample): `_align_text` does not emit bytes for every
text — a CENTER-aligned 23-character text at display width 20 computes
cursor column `floor((20 - 23) / 2) + 1 = -1`, and `chr(-1)` raises
`ValueError`, so nothing is emitted. -/
theorem align_text_center_overflow :
    align_text 20 (List.replicate 23 'a') HAlign.center VAlign.top = none := by
  decide

/-- C2 (amended): whenever the computed cursor column lies in `0..127`
(always the case for LEFT, and for RIGHT and CENTER at the configured
width 20 unless a CENTER text exceeds the width by more than 2),
`_align_text` emits exactly the prefix `FE 47`, the column byte given by
the per-alignment formula, the row-selector byte (`01` top, `02`
bottom), and the raw ASCII bytes of the text, unchanged. -/
theorem align_text_encoding (w : ℕ) (text : List Char) (h : HAlign)
    (v : VAlign) (hlo : 0 ≤ colIndex w text h)
    (hhi : colIndex w text h ≤ 127)
    (htext : ∀ c ∈ text, c.toNat < 128) :
    align_text w text h v =
      some ([0xFE, 0x47] ++ [(colIndex w text h).toNat] ++
        (match v with | VAlign.top => [1] | VAlign.bottom => [2]) ++
        text.map Char.toNat) ∧
    colIndex w text HAlign.left = 1 ∧
    colIndex w text HAlign.right = max ((w : ℤ) - text.length + 1) 1 ∧
    colIndex w text HAlign.center =
      Int.fdiv ((w : ℤ) - text.length) 2 + 1 := by
  refine ⟨?_, rfl, rfl, rfl⟩
  unfold align_text
  rw [if_neg (by omega)]
  rw [utf8Encode_ascii (by omega), flatMap_utf8_ascii text htext]

/-- Witness for C2: the spec's own examples — `encode("HI", CENTER, TOP, 20)`
uses column 10 and `encode("HI", RIGHT, BOTTOM, 20)` column 19. -/
theorem align_text_encoding_witness :
    align_text 20 "HI".toList HAlign.center VAlign.top =
      some [0xFE, 0x47, 10, 1, 72, 73] ∧
    align_text 20 "HI".toList HAlign.right VAlign.bottom =
      some [0xFE, 0x47, 19, 2, 72, 73] := by
  have h1 := (align_text_encoding 20 "HI".toList HAlign.center VAlign.top
    (by decide) (by decide) (by decide)).1
  have h2 := (align_text_encoding 20 "HI".toList HAlign.right VAlign.bottom
    (by decide) (by decide) (by decide)).1
  constructor
  · rw [h1]; decide
  · rw [h2]; decide

/-- C4 (counterexample): suppression alone does not guarantee the
countdown ticks down — with `skip_ticks = 2 > 0` but no metadata loaded
(the state right after a `reset`, e.g. when a seek arrives while
stopped), `on_tracker_tick` leaves the state completely unchanged, so
`skip_ticks` is not decremented. -/
theorem on_tick_suppression_cex :
    0 < ({ sampleState with artist := none, skip_ticks := 2 } :
      NowPlayingLCDData).skip_ticks ∧
    (on_tracker_tick { sampleState with artist := none, skip_ticks := 2 }).1 =
      { sampleState with artist := none, skip_ticks := 2 } := by
  constructor
  · norm_num
  · rfl

/-- C4 (amended): while suppression is active `on_tracker_tick` performs
no draw: with `skip_ticks = -1` it mutates nothing at all; with
`skip_ticks > 0` and metadata loaded it only decrements `skip_ticks`,
setting `force_refresh` exactly when the decrement reaches 0; with no
metadata loaded it mutates nothing regardless of `skip_ticks`. -/
theorem on_tick_suppression (s : NowPlayingLCDData) (a t : List Char) :
    (s.skip_ticks = -1 → on_tracker_tick s = (s, [])) ∧
    (s.artist = some a → s.title = some t → 0 < s.skip_ticks →
      on_tracker_tick s =
        ({ s with
            skip_ticks := s.skip_ticks - 1
            force_refresh := if s.skip_ticks - 1 = 0 then true
              else s.force_refresh }, [])) ∧
    (s.artist = none → on_tracker_tick s = (s, [])) := by
  refine ⟨fun h => ?_, fun ha ht h => ?_, fun h => ?_⟩
  · exact on_tick_guard s (Or.inr (Or.inr (by omega)))
  · exact on_tick_skip s a t ha ht h
  · exact on_tick_guard s (Or.inl h)

/-- Witness for C4: an indefinitely suppressed tick is a no-op, and a
countdown of 2 then 1 decrements, forcing a refresh exactly at 0. -/
theorem on_tick_suppression_witness :
    on_tracker_tick { sampleState with skip_ticks := -1 } =
      ({ sampleState with skip_ticks := -1 }, []) ∧
    on_tracker_tick { sampleState with skip_ticks := 2 } =
      ({ sampleState with skip_ticks := 1 }, []) ∧
    on_tracker_tick { sampleState with skip_ticks := 1 } =
      ({ sampleState with skip_ticks := 0, force_refresh := true }, []) := by
  have h1 := (on_tick_suppression { sampleState with skip_ticks := -1 }
    [] []).1 rfl
  have h2 := (on_tick_suppression { sampleState with skip_ticks := 2 }
    "The Artist".toList "The Title".toList).2.1 rfl rfl (by norm_num)
  have h3 := (on_tick_suppression { sampleState with skip_ticks := 1 }
    "The Artist".toList "The Title".toList).2.1 rfl rfl (by norm_num)
  refine ⟨h1, ?_, ?_⟩
  · rw [h2]; decide
  · rw [h3]; decide

/-- C5: `prevent_update` stores `-1` for negative seconds, else
`round(seconds * 1000 / interval)` (exact rational arithmetic with
Python's round-half-to-even); at interval 150 ms, `suppress(2)` stores
13; and an indefinite suppression is left in place by a tick and by the
metadata setters and the force call (only `reset` or another
`prevent_update` write `skip_ticks`). -/
theorem prevent_update_spec (s : NowPlayingLCDData) (seconds : ℚ)
    (ar ti : List Char) (al dn tn : Option (List Char)) :
    (seconds < 0 → prevent_update s seconds = { s with skip_ticks := -1 }) ∧
    (0 ≤ seconds → prevent_update s seconds =
      { s with skip_ticks := pyRound (seconds * 1000 / s.interval) }) ∧
    (s.interval = 150 → prevent_update s 2 = { s with skip_ticks := 13 }) ∧
    (s.skip_ticks = -1 →
      (on_tracker_tick s).1.skip_ticks = -1 ∧
      (set_basic_info s ar ti).skip_ticks = -1 ∧
      (set_disc_info s al dn tn).skip_ticks = -1 ∧
      (set_forced_update s).skip_ticks = -1) := by
  refine ⟨fun h => ?_, fun h => ?_, fun h => ?_, fun h => ?_⟩
  · simp [prevent_update, h]
  · rw [prevent_update, if_neg (by exact not_lt.mpr h)]
    congr 1
    rw [seconds_to_ticks, mul_div_assoc]
  · rw [prevent_update, if_neg (by norm_num)]
    have : seconds_to_ticks s.interval 2 = 13 := by
      rw [h]; norm_num [seconds_to_ticks, pyRound]
    rw [this]
  · refine ⟨?_, ?_, ?_, ?_⟩
    · rw [on_tick_guard s (Or.inr (Or.inr (by omega)))]
      exact h
    · simpa [set_basic_info] using h
    · simpa [set_disc_info] using h
    · simpa [set_forced_update] using h

/-- Witness for C5: `suppress(-3)` stores `-1`, `suppress(2)` stores 13
at interval 150, and a tick preserves an indefinite suppression. -/
theorem prevent_update_spec_witness :
    prevent_update sampleState (-3) = { sampleState with skip_ticks := -1 } ∧
    prevent_update sampleState 2 = { sampleState with skip_ticks := 13 } ∧
    (on_tracker_tick { sampleState with skip_ticks := -1 }).1.skip_ticks = -1 := by
  have h1 := (prevent_update_spec sampleState (-3) [] [] none none none).1
  have h2 := (prevent_update_spec sampleState 2 [] [] none none none).2.2.1
  have h3 := (prevent_update_spec { sampleState with skip_ticks := -1 } 0
    [] [] none none none).2.2.2
  exact ⟨h1 (by norm_num), h2 rfl, (h3 rfl).1⟩

/-- C6: during the scroll phases a tick never moves a retired (`-1`)
scroll cursor when the corresponding field fits the display (length at
most `display_width`, including exact equality), for the artist and the
title alike. -/
theorem no_scroll_short_text (s : NowPlayingLCDData) (a t : List Char)
    (hph : s.phase = Phase.basicScroll ∨ s.phase = Phase.basicScroll2) :
    (s.artist = some a → a.length ≤ s.max_width → s.scroll_a = -1 →
      (on_tracker_tick s).1.scroll_a = -1) ∧
    (s.title = some t → t.length ≤ s.max_width → s.scroll_t = -1 →
      (on_tracker_tick s).1.scroll_t = -1) := by
  constructor
  · intro ha hlen hsa
    by_cases ht0 : s.title = none
    · rw [on_tick_guard s (Or.inr (Or.inl ht0))]
      exact hsa
    · obtain ⟨u, hu⟩ := Option.ne_none_iff_exists'.mp ht0
      rcases lt_trichotomy s.skip_ticks 0 with hs | hs | hs
      · rw [on_tick_guard s (Or.inr (Or.inr hs))]
        exact hsa
      · rw [on_tick_scroll s a u ha hu hs hph]
        exact tick_scroll_keeps_a _ a ha hlen hsa
      · rw [on_tick_skip s a u ha hu hs]
        exact hsa
  · intro ht hlen hst
    by_cases ha0 : s.artist = none
    · rw [on_tick_guard s (Or.inl ha0)]
      exact hst
    · obtain ⟨a', ha'⟩ := Option.ne_none_iff_exists'.mp ha0
      rcases lt_trichotomy s.skip_ticks 0 with hs | hs | hs
      · rw [on_tick_guard s (Or.inr (Or.inr hs))]
        exact hst
      · rw [on_tick_scroll s a' t ha' ht hs hph]
        exact tick_scroll_keeps_t _ t ht hlen hst
      · rw [on_tick_skip s a' t ha' ht hs]
        exact hst

/-- Witness for C6: in a scroll phase at width 20, ticks leave the
retired cursors of the 10-character artist and 9-character title at `-1`. -/
theorem no_scroll_short_text_witness :
    (on_tracker_tick { sampleState with phase := Phase.basicScroll }).1.scroll_a
      = -1 ∧
    (on_tracker_tick { sampleState with phase := Phase.basicScroll }).1.scroll_t
      = -1 := by
  have h := no_scroll_short_text { sampleState with phase := Phase.basicScroll }
    "The Artist".toList "The Title".toList (Or.inl rfl)
  exact ⟨h.1 rfl (by decide) rfl, h.2 rfl (by decide) rfl⟩

/-- C9 (counterexample): the claimed row-2 rule left-justifies
`"Disc " + disc_number` to width 9, but the code left-justifies
`"Disc " + disc_number + " "` (an extra trailing blank); for the
4-character disc number "1234" the two disagree (10 vs 9 characters). -/
theorem set_disc_info_row2_cex :
    (set_disc_info sampleState none (some "1234".toList) none).disc_info_row_2 ≠
      disc_row_2_claimed 20 (some "1234".toList) none := by
  decide

/-- C9 (amended): an over-width album is cut to its first
`display_width - 3` characters plus a 3-character ellipsis (total
`display_width`); row 2 places `"Disc " + disc_number + " "`
left-justified to width 9 when the disc number is present and appends
`"Track " + track_number` right-justified into the remaining width when
the track number is present, each part omitted when absent; disc 1,
track 3 at width 20 gives the 20-character row
`"Disc 1       Track 3"`. -/
theorem set_disc_info_spec (s : NowPlayingLCDData) (al : List Char)
    (dn tn : Option (List Char)) (h3 : 3 ≤ s.max_width)
    (hl : s.max_width < al.length) :
    (set_disc_info s (some al) dn tn).disc_info_row_1 =
      al.take (s.max_width - 3) ++ ['.', '.', '.'] ∧
    (set_disc_info s (some al) dn tn).disc_info_row_1.length = s.max_width ∧
    (set_disc_info s (some al) dn tn).disc_info_row_2 =
      (match dn with
        | none => []
        | some d => ljust ("Disc ".toList ++ d ++ [' ']) 9) ++
      (match tn with
        | none => []
        | some t => rjust ("Track ".toList ++ t)
            (s.max_width - (match dn with
              | none => ([] : List Char)
              | some d => ljust ("Disc ".toList ++ d ++ [' ']) 9).length)) ∧
    (set_disc_info sampleState (some "An Album".toList)
      (some "1".toList) (some "3".toList)).disc_info_row_2 =
      "Disc 1       Track 3".toList := by
  have hrow1 : (set_disc_info s (some al) dn tn).disc_info_row_1 =
      al.take (s.max_width - 3) ++ ['.', '.', '.'] := by
    show (if al.length > s.max_width
      then pySliceTo ((s.max_width : ℤ) - 3) al ++ ['.', '.', '.']
      else al) = _
    rw [if_pos (by omega), pySliceTo, if_neg (by omega)]
    congr 2
    omega
  refine ⟨hrow1, ?_, ?_, by decide⟩
  · rw [hrow1]
    have h3' : (['.', '.', '.'] : List Char).length = 3 := rfl
    rw [List.length_append, List.length_take, h3', min_eq_left (by omega)]
    omega
  · cases tn <;> cases dn <;> simp [set_disc_info]

/-- Witness for C9: a 23-character album at width 20 truncates to 17
characters plus "..." (total 20), and the disc-1/track-3 row is the
20-character example row. -/
theorem set_disc_info_spec_witness :
    (set_disc_info sampleState (some (List.replicate 23 'z'))
      (some "1".toList) (some "3".toList)).disc_info_row_1 =
      List.replicate 17 'z' ++ ['.', '.', '.'] ∧
    (set_disc_info sampleState (some (List.replicate 23 'z'))
      (some "1".toList) (some "3".toList)).disc_info_row_1.length = 20 ∧
    (set_disc_info sampleState (some "An Album".toList)
      (some "1".toList) (some "3".toList)).disc_info_row_2 =
      "Disc 1       Track 3".toList := by
  have h := set_disc_info_spec sampleState (List.replicate 23 'z')
    (some "1".toList) (some "3".toList) (by decide) (by decide)
  refine ⟨?_, ?_, h.2.2.2⟩
  · rw [h.1]; decide
  · rw [h.2.1]; rfl

/-- C10: every row drawn through `_write_text` is first truncated to at
most `display_width` characters — both as a general fact about
`_write_text` and for every row `_refresh` emits — so the tick path
never hands the encoder an over-width row even though the stored
artist/title buffers may be up to twice the display width. -/
theorem write_text_truncates :
    (∀ (w : ℕ) (text : List Char) (scroll : Option ℤ),
      (write_text_row w text scroll).length ≤ w) ∧
    (∀ (s : NowPlayingLCDData) (af tf df : Bool) (t : List Char) (v : VAlign),
      Write.row t v ∈ refresh_writes s af tf df → t.length ≤ s.max_width) := by
  have key : ∀ (w : ℕ) (text : List Char) (scroll : Option ℤ),
      (write_text_row w text scroll).length ≤ w := by
    intro w text scroll
    unfold write_text_row
    exact List.length_take_le _ _
  refine ⟨key, fun s af tf df t v h => ?_⟩
  unfold refresh_writes at h
  split at h
  · simp only [List.mem_cons, List.not_mem_nil, or_false,
      Write.row.injEq] at h
    rcases h with ⟨h, -⟩ | ⟨h, -⟩ <;> (subst h; exact key _ _ _)
  · rw [List.mem_append] at h
    rcases h with h | h <;> split at h <;>
      simp only [List.mem_singleton, List.not_mem_nil, Write.row.injEq] at h <;>
      (rcases h with ⟨h, -⟩; subst h; exact key _ _ _)

/-- Witness for C10: a doubled-width buffer rotated mid-scroll is cut to
the 2-character display, and an unrotated 10-character artist row fits
width 20. -/
theorem write_text_truncates_witness :
    (write_text_row 2 "abcdef".toList (some 3)).length ≤ 2 ∧
    (write_text_row 20 "The Artist".toList (some (-1))).length ≤ 20 := by
  exact ⟨write_text_truncates.1 2 "abcdef".toList (some 3),
    write_text_truncates.1 20 "The Artist".toList (some (-1))⟩

end MatrixOrbital

namespace MatrixOrbital

/-! ### The scroll-cursor invariant (C7) -/

/-- C7 (counterexample): the invariant fails as stated — `reset()`
starts both cursors at 0 (not `-1`), so after a reset followed by
`set_basic_info("ab", "cd")` at width 20 the state is reachable by the
claim's own operations, `scroll_artist = 0 ≠ -1`, yet the artist text
(2 characters) does not exceed the display width. -/
theorem scroll_cursor_invariant_cex :
    ReachAny 20 150 (set_basic_info (initState 20 150) "ab".toList "cd".toList) ∧
    ¬((set_basic_info (initState 20 150) "ab".toList "cd".toList).scroll_a = -1) ∧
    ∀ a, (set_basic_info (initState 20 150) "ab".toList "cd".toList).artist
        = some a →
      a.length ≤
        (set_basic_info (initState 20 150) "ab".toList "cd".toList).max_width := by
  refine ⟨ReachAny.basic "ab".toList "cd".toList ReachAny.init, ?_, ?_⟩
  · show ¬((0 : ℤ) = -1)
    omega
  · intro a ha
    have : a = "ab".toList := by
      simpa [set_basic_info, initState, reset] using ha.symm
    subst this
    decide

/-- `_advance_phase` establishes the scroll-cursor invariant outright:
it reinitializes both cursors from the current text lengths. -/
theorem scrollInv_advance (x : NowPlayingLCDData) :
    scrollInv (advance_phase x) := by
  rw [scrollInv, advance_phase]
  dsimp only
  refine ⟨fun h1 => ?_, fun _ h1 => ?_, fun h1 => ?_, fun _ h1 => ?_⟩
  · exfalso
    revert h1
    split <;> omega
  · revert h1
    split
    · omega
    · rename_i hlen
      intro _
      cases hx : x.artist with
      | none => exact absurd (by simp [hx]) hlen
      | some a =>
        refine ⟨a, by simp [hx], ?_⟩
        rw [hx] at hlen
        simp at hlen
        omega
  · exfalso
    revert h1
    split <;> omega
  · revert h1
    split
    · omega
    · rename_i hlen
      intro _
      cases hx : x.title with
      | none => exact absurd (by simp [hx]) hlen
      | some t =>
        refine ⟨t, by simp [hx], ?_⟩
        rw [hx] at hlen
        simp at hlen
        omega

/-- The invariant ignores the `force_refresh` flag. -/
theorem scrollInv_update (s : NowPlayingLCDData) (b : Bool)
    (h : scrollInv s) : scrollInv { s with force_refresh := b } := by
  simpa [scrollInv] using h

/-- The `BASIC_INFO` block preserves the scroll-cursor invariant. -/
theorem scrollInv_tick_basic (s1 : NowPlayingLCDData) (h : scrollInv s1) :
    scrollInv (tick_basic_info s1).1 := by
  rw [tick_basic_info]
  split
  · split
    · exact scrollInv_advance _
    · exact scrollInv_update s1 false h
  · split
    · exact scrollInv_advance _
    · exact h

/-- The `DISC_INFO` block preserves the scroll-cursor invariant. -/
theorem scrollInv_tick_disc (s1 : NowPlayingLCDData) (h : scrollInv s1) :
    scrollInv (tick_disc s1).1 := by
  rw [tick_disc]
  split
  · split
    · exact scrollInv_advance _
    · exact scrollInv_update s1 false h
  · split
    · exact scrollInv_advance _
    · exact h

/-- The `HEADER_INFO` block preserves the scroll-cursor invariant. -/
theorem scrollInv_tick_header (s1 : NowPlayingLCDData) (h : scrollInv s1) :
    scrollInv (tick_header s1).1 := by
  rw [tick_header]
  split
  · split
    · exact scrollInv_advance _
    · exact scrollInv_update s1 false h
  · split
    · exact scrollInv_advance _
    · exact h

/-- The scroll block preserves the invariant: a cursor is stepped only
from a non-negative value, which inside a scroll phase already certifies
an over-width text. -/
theorem scrollInv_tick_scroll (s1 : NowPlayingLCDData)
    (hp : s1.phase = Phase.basicScroll ∨ s1.phase = Phase.basicScroll2)
    (h : scrollInv s1) : scrollInv (tick_scroll s1).1 := by
  rw [tick_scroll]
  split
  · exact scrollInv_advance _
  · dsimp only
    by_cases hf : s1.force_refresh = true <;>
      by_cases hsa : s1.scroll_a > -1 <;>
      by_cases hra : s1.scroll_a + 1 > ((s1.artist.getD []).length : ℤ) <;>
      by_cases hst : s1.scroll_t > -1 <;>
      by_cases hrt : s1.scroll_t + 1 > ((s1.title.getD []).length : ℤ) <;>
      simp only [hf, hsa, hra, hst, hrt, if_true, if_false,
        Bool.false_eq_true] <;>
      (try rw [scrollInv]) <;>
      (try dsimp only) <;>
      refine ⟨fun hx => ?_, fun hq hx => ?_, fun hx => ?_, fun hq hx => ?_⟩ <;>
      first
        | exact absurd hx (by decide)
        | exact h.1 hx
        | exact h.2.1 hp (by omega)
        | exact h.2.2.1 hx
        | exact h.2.2.2 hp (by omega)

/-- `reset` establishes the invariant (cursors at 0, phase `BASIC_INFO`). -/
theorem scrollInv_reset (s : NowPlayingLCDData) : scrollInv (reset s) := by
  rw [scrollInv, reset]
  dsimp only
  refine ⟨fun hx => absurd hx (by decide), fun hq _ => ?_,
    fun hx => absurd hx (by decide), fun hq _ => ?_⟩ <;>
    rcases hq with hq | hq <;> exact absurd hq (by decide)

/-- A track start (`reset` then `set_basic_info` then `set_disc_info`,
as `plugin_on_song_started` performs) establishes the invariant. -/
theorem scrollInv_track_start (s : NowPlayingLCDData) (ar ti : List Char)
    (al dn tn : Option (List Char)) :
    scrollInv (set_disc_info (set_basic_info (reset s) ar ti) al dn tn) := by
  rw [scrollInv]
  dsimp only [set_disc_info, set_basic_info, reset]
  refine ⟨fun hx => absurd hx (by decide), fun hq _ => ?_,
    fun hx => absurd hx (by decide), fun hq _ => ?_⟩ <;>
    rcases hq with hq | hq <;> exact absurd hq (by decide)

/-- `prevent_update` preserves the invariant. -/
theorem scrollInv_prevent (s : NowPlayingLCDData) (sec : ℚ)
    (h : scrollInv s) : scrollInv (prevent_update s sec) := by
  rw [prevent_update]
  split <;> simpa [scrollInv] using h

/-- `set_forced_update` preserves the invariant. -/
theorem scrollInv_force (s : NowPlayingLCDData) (h : scrollInv s) :
    scrollInv (set_forced_update s) := by
  simpa [scrollInv, set_forced_update] using h

/-- `on_tracker_tick` preserves the invariant, whatever branch it takes. -/
theorem scrollInv_tick (s : NowPlayingLCDData) (h : scrollInv s) :
    scrollInv (on_tracker_tick s).1 := by
  by_cases ha0 : s.artist = none
  · rw [on_tick_guard s (Or.inl ha0)]
    exact h
  by_cases ht0 : s.title = none
  · rw [on_tick_guard s (Or.inr (Or.inl ht0))]
    exact h
  obtain ⟨a, ha⟩ := Option.ne_none_iff_exists'.mp ha0
  obtain ⟨u, hu⟩ := Option.ne_none_iff_exists'.mp ht0
  rcases lt_trichotomy s.skip_ticks 0 with hs | hs | hs
  · rw [on_tick_guard s (Or.inr (Or.inr hs))]
    exact h
  · rw [on_tick_dispatch s a u ha hu hs]
    have h1 : scrollInv { s with tick_count := s.tick_count + 1 } := by
      simpa [scrollInv] using h
    cases hph : s.phase <;> rw [hph] at h1
    · exact scrollInv_tick_basic _ h1
    · exact scrollInv_tick_scroll _ (Or.inl rfl) h1
    · exact scrollInv_tick_basic _ h1
    · exact scrollInv_tick_scroll _ (Or.inr rfl) h1
    · exact scrollInv_tick_disc _ h1
    · exact scrollInv_tick_header _ h1
  · rw [on_tick_skip s a u ha hu hs]
    simpa [scrollInv] using h

/-- Every state reachable with track-start-style metadata setting
satisfies the scroll-cursor invariant. -/
theorem scrollInv_reachTrack (w : ℕ) (iv : ℚ) (s : NowPlayingLCDData)
    (h : ReachTrack w iv s) : scrollInv s := by
  induction h with
  | init => exact scrollInv_reset _
  | trackStart ar ti al dn tn _ _ => exact scrollInv_track_start _ ar ti al dn tn
  | trackEnd _ _ => exact scrollInv_reset _
  | suppress sec _ ih => exact scrollInv_prevent _ sec ih
  | force _ ih => exact scrollInv_force _ ih
  | tick _ ih => exact scrollInv_tick _ ih

/-- C7 (amended): in every state reachable by reset, suppress,
force-update and tick calls, with the metadata setters invoked as at
track start (reset, then `set_basic_info`, then `set_disc_info`), a
*positive* scroll cursor occurs only when the corresponding stored text
is longer than the display width; and inside a scroll phase the same
holds for any cursor value other than `-1` (i.e. ≥ 0).  (The value 0
with a short or absent text does occur outside scroll phases, e.g.
right after `reset`, which refutes the claim as stated.) -/
theorem scroll_cursor_invariant (w : ℕ) (iv : ℚ) (s : NowPlayingLCDData)
    (h : ReachTrack w iv s) :
    (1 ≤ s.scroll_a → ∃ a, s.artist = some a ∧ s.max_width < a.length) ∧
    ((s.phase = Phase.basicScroll ∨ s.phase = Phase.basicScroll2) →
      0 ≤ s.scroll_a → ∃ a, s.artist = some a ∧ s.max_width < a.length) ∧
    (1 ≤ s.scroll_t → ∃ t, s.title = some t ∧ s.max_width < t.length) ∧
    ((s.phase = Phase.basicScroll ∨ s.phase = Phase.basicScroll2) →
      0 ≤ s.scroll_t → ∃ t, s.title = some t ∧ s.max_width < t.length) :=
  scrollInv_reachTrack w iv s h

/-- Witness for C7: the freshly initialized width-20 state is reachable
and satisfies the invariant's conclusions. -/
theorem scroll_cursor_invariant_witness :
    (1 ≤ (initState 20 150).scroll_a →
      ∃ a, (initState 20 150).artist = some a ∧ 20 < a.length) ∧
    (1 ≤ (initState 20 150).scroll_t →
      ∃ t, (initState 20 150).title = some t ∧ 20 < t.length) := by
  have h := scroll_cursor_invariant 20 150 (initState 20 150) ReachTrack.init
  exact ⟨h.1, h.2.2.1⟩

end MatrixOrbital

namespace MatrixOrbital

/-! ### The scroll rendering sequence (C1) -/

/-- `runTicks` peels its last tick. -/
theorem runTicks_succ_last (n : ℕ) (s : NowPlayingLCDData) :
    runTicks (n + 1) s =
      ((on_tracker_tick (runTicks n s).1).1,
        (runTicks n s).2 ++ (on_tracker_tick (runTicks n s).1).2) := by
  induction n generalizing s with
  | zero => simp [runTicks]
  | succ n ih =>
    conv_lhs => rw [runTicks]
    conv_rhs => rw [runTicks]
    rw [ih]
    simp [List.append_assoc]

/-- `topRows` distributes over concatenation of write lists. -/
theorem topRows_append (xs ys : List Write) :
    topRows (xs ++ ys) = topRows xs ++ topRows ys := by
  simp [topRows]

/-- `bottomRows` distributes over concatenation of write lists. -/
theorem bottomRows_append (xs ys : List Write) :
    bottomRows (xs ++ ys) = bottomRows xs ++ bottomRows ys := by
  simp [bottomRows]

/-- Rotating a list by its full length is the identity. -/
theorem rotl_full (a : List Char) : rotl a a.length = a := by
  simp [rotl]

/-- For offsets `1..length`, the row drawn by `_write_text`
(`text[scroll:] + text`, truncated) is the rotation-by-offset prefix. -/
theorem write_text_row_rotl (w : ℕ) (a : List Char) (j : ℕ)
    (h1 : 1 ≤ j) (h2 : j ≤ a.length) (hw : w ≤ a.length) :
    write_text_row w a (some (j : ℤ)) = (rotl a j).take w := by
  rw [write_text_row, rotl]
  rw [if_pos (by omega : (j : ℤ) > 0)]
  have hj : (j : ℤ).toNat = j := Int.toNat_natCast j
  rw [hj]
  rw [List.take_append_eq_append_take, List.take_append_eq_append_take,
    List.take_take]
  congr 1
  rw [List.length_drop, min_eq_left (by omega)]

/-- A retired cursor (`-1`) draws the unrotated prefix. -/
theorem write_text_row_retired (w : ℕ) (a : List Char) :
    write_text_row w a (some (-1)) = a.take w := by
  rw [write_text_row]
  norm_num

/-- One scroll-phase tick with a live artist cursor at `k`, the title
in any state: the artist cursor steps to `k + 1` (retiring past the
text length), the title cursor follows its own one-step update, and the
tick's only top-row write is the artist row at the new offset. -/
theorem tick_scroll_step_artist (s1 : NowPlayingLCDData) (a : List Char)
    (k : ℕ) (ha : s1.artist = some a) (hsa : s1.scroll_a = (k : ℤ)) :
    (tick_scroll s1).1 = { s1 with
        scroll_a := if (k : ℤ) + 1 > (a.length : ℤ) then -1 else (k : ℤ) + 1
        scroll_t := if s1.scroll_t > -1 then
            (if s1.scroll_t + 1 > ((s1.title.getD []).length : ℤ) then -1
             else s1.scroll_t + 1)
          else s1.scroll_t
        force_refresh := false } ∧
    topRows (tick_scroll s1).2 =
      [write_text_row s1.max_width a
        (some (if (k : ℤ) + 1 > (a.length : ℤ) then -1 else (k : ℤ) + 1))] := by
  have hk1 : ((k : ℤ) > -1) := by omega
  rw [tick_scroll]
  dsimp only
  rw [if_neg (by rintro ⟨-, h2, -⟩; rw [hsa] at h2; omega)]
  by_cases hf : s1.force_refresh = true <;>
    by_cases h3 : s1.scroll_t > -1 <;>
    by_cases h4 : s1.scroll_t + 1 > ((s1.title.getD []).length : ℤ) <;>
    simp [hf, hsa, ha, h3, h4, hk1, refresh_writes, topRows]

/-- One scroll-phase tick with a live title cursor at `k`, the artist
in any state: symmetric to `tick_scroll_step_artist`, and the tick's
only bottom-row write is the title row at the new offset. -/
theorem tick_scroll_step_title (s1 : NowPlayingLCDData) (u : List Char)
    (k : ℕ) (ht : s1.title = some u) (hst : s1.scroll_t = (k : ℤ)) :
    (tick_scroll s1).1 = { s1 with
        scroll_a := if s1.scroll_a > -1 then
            (if s1.scroll_a + 1 > ((s1.artist.getD []).length : ℤ) then -1
             else s1.scroll_a + 1)
          else s1.scroll_a
        scroll_t := if (k : ℤ) + 1 > (u.length : ℤ) then -1 else (k : ℤ) + 1
        force_refresh := false } ∧
    bottomRows (tick_scroll s1).2 =
      [write_text_row s1.max_width u
        (some (if (k : ℤ) + 1 > (u.length : ℤ) then -1 else (k : ℤ) + 1))] := by
  have hk1 : ((k : ℤ) > -1) := by omega
  rw [tick_scroll]
  dsimp only
  rw [if_neg (by rintro ⟨-, -, h3⟩; rw [hst] at h3; omega)]
  by_cases hf : s1.force_refresh = true <;>
    by_cases h3 : s1.scroll_a > -1 <;>
    by_cases h4 : s1.scroll_a + 1 > ((s1.artist.getD []).length : ℤ) <;>
    simp [hf, hst, ht, h3, h4, hk1, refresh_writes, bottomRows]

/-- Running `j ≤ N + W` ticks from a scroll-phase entry state whose
artist buffer is `t` padded with `W` blanks (cursor 0, forced refresh
pending), with the title text and title cursor *arbitrary*: the artist
cursor and the tick counter reach `j`, the title cursor follows its own
per-tick update (`scrollCursorRun`), and the top rows rendered are
exactly the rotations `1..j` of the padded artist buffer, truncated to
the display. -/
theorem scroll_run_artist (W : ℕ) (t other : List Char)
    (s0 : NowPlayingLCDData)
    (hW : s0.max_width = W) (hlt : W < t.length)
    (ha : s0.artist = some (t ++ List.replicate W ' '))
    (htl : s0.title = some other)
    (hph : s0.phase = Phase.basicScroll ∨ s0.phase = Phase.basicScroll2)
    (hsa : s0.scroll_a = 0)
    (hsk : s0.skip_ticks = 0) (htc : s0.tick_count = 0)
    (hfr : s0.force_refresh = true) :
    ∀ j : ℕ, j ≤ t.length + W →
      (runTicks j s0).1 = { s0 with
          scroll_a := (j : ℤ)
          scroll_t := scrollCursorRun (other.length : ℤ) s0.scroll_t j
          tick_count := (j : ℤ)
          force_refresh := decide (j = 0) } ∧
      topRows (runTicks j s0).2 = (List.range j).map (fun i =>
        (rotl (t ++ List.replicate W ' ') (min (i + 1) (t.length + W))).take W) := by
  have hlen : (t ++ List.replicate W ' ').length = t.length + W := by simp
  obtain ⟨mw, iv, tip, ar, ti, d1, d2, sk, sa, stt, tc, ph, fr⟩ := s0
  dsimp only at hW ha htl hph hsa hsk htc hfr ⊢
  subst hW ha htl hsa hsk htc hfr
  intro j
  induction j with
  | zero =>
    intro _
    exact ⟨rfl, rfl⟩
  | succ j ihj =>
    intro hj1
    obtain ⟨ih1, ih2⟩ := ihj (by omega)
    rw [runTicks_succ_last]
    dsimp only
    rw [topRows_append, ih1, ih2]
    rw [on_tick_scroll _ (t ++ List.replicate mw ' ') other rfl rfl rfl hph]
    obtain ⟨e1, e2⟩ := tick_scroll_step_artist
      ({ max_width := mw, interval := iv, ticks_in_phase := tip
         artist := some (t ++ List.replicate mw ' '), title := some other
         disc_info_row_1 := d1, disc_info_row_2 := d2, skip_ticks := 0
         scroll_a := (j : ℤ)
         scroll_t := scrollCursorRun (other.length : ℤ) stt j
         tick_count := (j : ℤ) + 1
         phase := ph, force_refresh := decide (j = 0) } : NowPlayingLCDData)
      (t ++ List.replicate mw ' ') j rfl rfl
    rw [e1, e2]
    have hite : (if (j : ℤ) + 1 > ((t ++ List.replicate mw ' ').length : ℤ)
        then (-1 : ℤ) else (j : ℤ) + 1) = ((j + 1 : ℕ) : ℤ) := by
      rw [hlen, if_neg (by push_cast; omega)]
      push_cast
      ring
    constructor
    · rw [hite]
      have hd : decide (j + 1 = 0) = false := by simp
      rw [hd]
      simp [Nat.cast_succ, scrollCursorRun]
    · rw [List.range_succ, List.map_append]
      congr 1
      rw [hite]
      simp only [List.map_cons, List.map_nil]
      rw [min_eq_left (by omega)]
      rw [← write_text_row_rotl mw (t ++ List.replicate mw ' ') (j + 1)
        (by omega) (by rw [hlen]; omega) (by rw [hlen]; omega)]

/-- Symmetric run lemma for the title field: artist text and artist
cursor arbitrary, bottom rows rendered are the rotations of the padded
title buffer. -/
theorem scroll_run_title (W : ℕ) (u other : List Char)
    (s0 : NowPlayingLCDData)
    (hW : s0.max_width = W) (hlt : W < u.length)
    (htl : s0.title = some (u ++ List.replicate W ' '))
    (ha : s0.artist = some other)
    (hph : s0.phase = Phase.basicScroll ∨ s0.phase = Phase.basicScroll2)
    (hst : s0.scroll_t = 0)
    (hsk : s0.skip_ticks = 0) (htc : s0.tick_count = 0)
    (hfr : s0.force_refresh = true) :
    ∀ j : ℕ, j ≤ u.length + W →
      (runTicks j s0).1 = { s0 with
          scroll_a := scrollCursorRun (other.length : ℤ) s0.scroll_a j
          scroll_t := (j : ℤ)
          tick_count := (j : ℤ)
          force_refresh := decide (j = 0) } ∧
      bottomRows (runTicks j s0).2 = (List.range j).map (fun i =>
        (rotl (u ++ List.replicate W ' ') (min (i + 1) (u.length + W))).take W) := by
  have hlen : (u ++ List.replicate W ' ').length = u.length + W := by simp
  obtain ⟨mw, iv, tip, ar, ti, d1, d2, sk, sa, stt, tc, ph, fr⟩ := s0
  dsimp only at hW ha htl hph hst hsk htc hfr ⊢
  subst hW ha htl hst hsk htc hfr
  intro j
  induction j with
  | zero =>
    intro _
    exact ⟨rfl, rfl⟩
  | succ j ihj =>
    intro hj1
    obtain ⟨ih1, ih2⟩ := ihj (by omega)
    rw [runTicks_succ_last]
    dsimp only
    rw [bottomRows_append, ih1, ih2]
    rw [on_tick_scroll _ other (u ++ List.replicate mw ' ') rfl rfl rfl hph]
    obtain ⟨e1, e2⟩ := tick_scroll_step_title
      ({ max_width := mw, interval := iv, ticks_in_phase := tip
         artist := some other, title := some (u ++ List.replicate mw ' ')
         disc_info_row_1 := d1, disc_info_row_2 := d2, skip_ticks := 0
         scroll_a := scrollCursorRun (other.length : ℤ) sa j
         scroll_t := (j : ℤ)
         tick_count := (j : ℤ) + 1
         phase := ph, force_refresh := decide (j = 0) } : NowPlayingLCDData)
      (u ++ List.replicate mw ' ') j rfl rfl
    rw [e1, e2]
    have hite : (if (j : ℤ) + 1 > ((u ++ List.replicate mw ' ').length : ℤ)
        then (-1 : ℤ) else (j : ℤ) + 1) = ((j + 1 : ℕ) : ℤ) := by
      rw [hlen, if_neg (by push_cast; omega)]
      push_cast
      ring
    constructor
    · rw [hite]
      have hd : decide (j + 1 = 0) = false := by simp
      rw [hd]
      simp [Nat.cast_succ, scrollCursorRun]
    · rw [List.range_succ, List.map_append]
      congr 1
      rw [hite]
      simp only [List.map_cons, List.map_nil]
      rw [min_eq_left (by omega)]
      rw [← write_text_row_rotl mw (u ++ List.replicate mw ' ') (j + 1)
        (by omega) (by rw [hlen]; omega) (by rw [hlen]; omega)]

set_option maxHeartbeats 1000000 in
/-- C1 (amended): for *every* field — artist (top row) and title
(bottom row) alike, with the other field's text and cursor arbitrary,
so in particular when both fields scroll concurrently — a field text
of length `N > display_width` (stored buffer padded with
`display_width` blanks), from the phase-entry state (cursor 0, forced
refresh pending), renders over the `N + display_width + 1` ticks of a
scroll phase the substrings
`rotate_left(text + " "*display_width, k)[:display_width]` for
`k = 1 .. N + display_width`, followed by one final frame at offset 0
(equal to the full-rotation frame), drawn when the cursor retires —
NOT `k = 0..N` as claimed; afterwards the field freezes: while its
cursor is retired and no forced refresh is pending, a scroll-phase tick
draws no row for it until the phase changes. -/
theorem scroll_sequence :
    (∀ (W : ℕ) (t other : List Char) (s0 : NowPlayingLCDData),
      s0.max_width = W → W < t.length →
      s0.artist = some (t ++ List.replicate W ' ') →
      s0.title = some other →
      (s0.phase = Phase.basicScroll ∨ s0.phase = Phase.basicScroll2) →
      s0.scroll_a = 0 → s0.skip_ticks = 0 → s0.tick_count = 0 →
      s0.force_refresh = true →
      topRows (runTicks (t.length + W + 1) s0).2 =
        (List.range (t.length + W + 1)).map (fun i =>
          (rotl (t ++ List.replicate W ' ') (min (i + 1) (t.length + W))).take W)) ∧
    (∀ (W : ℕ) (u other : List Char) (s0 : NowPlayingLCDData),
      s0.max_width = W → W < u.length →
      s0.title = some (u ++ List.replicate W ' ') →
      s0.artist = some other →
      (s0.phase = Phase.basicScroll ∨ s0.phase = Phase.basicScroll2) →
      s0.scroll_t = 0 → s0.skip_ticks = 0 → s0.tick_count = 0 →
      s0.force_refresh = true →
      bottomRows (runTicks (u.length + W + 1) s0).2 =
        (List.range (u.length + W + 1)).map (fun i =>
          (rotl (u ++ List.replicate W ' ') (min (i + 1) (u.length + W))).take W)) ∧
    (∀ s : NowPlayingLCDData,
      s.phase = Phase.basicScroll ∨ s.phase = Phase.basicScroll2 →
      s.artist ≠ none → s.title ≠ none → s.skip_ticks = 0 →
      s.scroll_a = -1 → s.force_refresh = false →
      topRows (on_tracker_tick s).2 = []) ∧
    (∀ s : NowPlayingLCDData,
      s.phase = Phase.basicScroll ∨ s.phase = Phase.basicScroll2 →
      s.artist ≠ none → s.title ≠ none → s.skip_ticks = 0 →
      s.scroll_t = -1 → s.force_refresh = false →
      bottomRows (on_tracker_tick s).2 = []) := by
  refine ⟨?_, ?_, ?_, ?_⟩
  · intro W t other s0 hW hlt ha htl hph hsa hsk htc hfr
    have hlen : (t ++ List.replicate W ' ').length = t.length + W := by simp
    obtain ⟨r1, r2⟩ := scroll_run_artist W t other s0 hW hlt ha htl hph hsa
      hsk htc hfr (t.length + W) le_rfl
    rw [runTicks_succ_last, topRows_append, r1, r2]
    rw [on_tick_scroll
      ({ s0 with
          scroll_a := ((t.length + W : ℕ) : ℤ)
          scroll_t := scrollCursorRun (other.length : ℤ) s0.scroll_t
            (t.length + W)
          tick_count := ((t.length + W : ℕ) : ℤ)
          force_refresh := decide (t.length + W = 0) } : NowPlayingLCDData)
      (t ++ List.replicate W ' ') other ha htl hsk hph]
    dsimp only
    obtain ⟨e1, e2⟩ := tick_scroll_step_artist
      ({ s0 with
          scroll_a := ((t.length + W : ℕ) : ℤ)
          scroll_t := scrollCursorRun (other.length : ℤ) s0.scroll_t
            (t.length + W)
          tick_count := ((t.length + W : ℕ) : ℤ) + 1
          force_refresh := decide (t.length + W = 0) } : NowPlayingLCDData)
      (t ++ List.replicate W ' ') (t.length + W) ha rfl
    rw [e2]
    rw [if_pos (by rw [hlen]; push_cast; omega)]
    dsimp only
    rw [List.range_succ, List.map_append]
    congr 1
    simp only [List.map_cons, List.map_nil]
    rw [min_eq_right (by omega)]
    rw [write_text_row_retired]
    rw [← hlen, rotl_full, hW]
  · intro W u other s0 hW hlt htl ha hph hst hsk htc hfr
    have hlen : (u ++ List.replicate W ' ').length = u.length + W := by simp
    obtain ⟨r1, r2⟩ := scroll_run_title W u other s0 hW hlt htl ha hph hst
      hsk htc hfr (u.length + W) le_rfl
    rw [runTicks_succ_last, bottomRows_append, r1, r2]
    rw [on_tick_scroll
      ({ s0 with
          scroll_a := scrollCursorRun (other.length : ℤ) s0.scroll_a
            (u.length + W)
          scroll_t := ((u.length + W : ℕ) : ℤ)
          tick_count := ((u.length + W : ℕ) : ℤ)
          force_refresh := decide (u.length + W = 0) } : NowPlayingLCDData)
      other (u ++ List.replicate W ' ') ha htl hsk hph]
    dsimp only
    obtain ⟨e1, e2⟩ := tick_scroll_step_title
      ({ s0 with
          scroll_a := scrollCursorRun (other.length : ℤ) s0.scroll_a
            (u.length + W)
          scroll_t := ((u.length + W : ℕ) : ℤ)
          tick_count := ((u.length + W : ℕ) : ℤ) + 1
          force_refresh := decide (u.length + W = 0) } : NowPlayingLCDData)
      (u ++ List.replicate W ' ') (u.length + W) htl rfl
    rw [e2]
    rw [if_pos (by rw [hlen]; push_cast; omega)]
    dsimp only
    rw [List.range_succ, List.map_append]
    congr 1
    simp only [List.map_cons, List.map_nil]
    rw [min_eq_right (by omega)]
    rw [write_text_row_retired]
    rw [← hlen, rotl_full, hW]
  · intro s hps ha0 ht0 hsk0 hsa0 hfr0
    obtain ⟨a', ha'⟩ := Option.ne_none_iff_exists'.mp ha0
    obtain ⟨u', hu'⟩ := Option.ne_none_iff_exists'.mp ht0
    rw [on_tick_scroll s a' u' ha' hu' hsk0 hps]
    rw [tick_scroll]
    dsimp only
    split
    · rfl
    · split <;> simp [hsa0, hfr0, topRows, refresh_writes]
  · intro s hps ha0 ht0 hsk0 hst0 hfr0
    obtain ⟨a', ha'⟩ := Option.ne_none_iff_exists'.mp ha0
    obtain ⟨u', hu'⟩ := Option.ne_none_iff_exists'.mp ht0
    rw [on_tick_scroll s a' u' ha' hu' hsk0 hps]
    rw [tick_scroll]
    dsimp only
    split
    · rfl
    · split <;> simp [hst0, hfr0, bottomRows, refresh_writes]

/-- C1 (counterexample): at width 2 with artist `"abc"` (N = 3), the
claimed rendering `rotate_left(t + "  ", k)[:2]` for `k = 0..3`
(`"ab","bc","c ","  "`) differs from the frames the phase actually
renders (`"bc","c ","  "," a",…`): the scroll starts at offset 1, not
0, and runs past `k = N`. -/
theorem scroll_sequence_cex :
    topRows (runTicks 4 scrollEntryState).2 ≠
      (List.range 4).map (fun k =>
        (rotl ("abc".toList ++ List.replicate 2 ' ') k).take 2) := by
  decide

/-- Witness for C1: with artist `"wxyz"` and title `"abc"` scrolling
concurrently at width 2, the top rows of a 7-tick run are the artist
rotations and the bottom rows of a 6-tick run are the title rotations;
and a tick with a retired cursor and no pending refresh draws no row
for that field. -/
theorem scroll_sequence_witness :
    topRows (runTicks 7 scrollEntryBoth).2 =
      (List.range 7).map (fun i =>
        (rotl ("wxyz".toList ++ List.replicate 2 ' ') (min (i + 1) 6)).take 2) ∧
    bottomRows (runTicks 6 scrollEntryBoth).2 =
      (List.range 6).map (fun i =>
        (rotl ("abc".toList ++ List.replicate 2 ' ') (min (i + 1) 5)).take 2) ∧
    topRows (on_tracker_tick
      { scrollEntryState with scroll_a := -1, force_refresh := false }).2 = [] ∧
    bottomRows (on_tracker_tick
      { scrollEntryState with force_refresh := false }).2 = [] := by
  refine ⟨?_, ?_, ?_, ?_⟩
  · exact scroll_sequence.1 2 "wxyz".toList
      ("abc".toList ++ List.replicate 2 ' ') scrollEntryBoth
      rfl (by decide) rfl rfl (Or.inl rfl) rfl rfl rfl rfl
  · exact scroll_sequence.2.1 2 "abc".toList
      ("wxyz".toList ++ List.replicate 2 ' ') scrollEntryBoth
      rfl (by decide) rfl rfl (Or.inl rfl) rfl rfl rfl rfl
  · exact scroll_sequence.2.2.1 _ (Or.inl rfl) (by decide) (by decide)
      rfl rfl rfl
  · exact scroll_sequence.2.2.2 _ (Or.inl rfl) (by decide) (by decide)
      rfl rfl rfl

end MatrixOrbital
